import Mathlib

/-!
# Verification of the Garden_Validation image validator

Shallow embedding of `src/validator.py` (class `ImageValidator`, method
`validate_image` and its inner helper `get_working_model`), together with a
spec-modelled version of the heuristic validator described in the spec but not
present under `src/`.

Modelling conventions:
* Python dicts that carry JSON-like data are `List (String × Json)` with key
  lookup via `List.lookup` (first occurrence wins; `json.loads` never produces
  duplicate keys).
* Library calls made by the Python code (`genai.list_models`,
  `model.generate_content`, `json.loads`, `PIL.Image.open`, `time.sleep`) are
  parameters of the embedding, bundled in `Env`; the effects the claims talk
  about (sleep durations, number of network calls) are recorded in a `Trace`.
* Exceptions are `Except String`, the `String` being Python's `str(e)`;
  `generate_content` outcomes distinguish the `ResourceExhausted` class from
  every other exception class, because the code's `except` clauses do.
* The uploaded file object is a `ByteStream` (a size and a read position):
  `PIL.Image.open` reads it (position moves to the end) and `seek(0)` rewinds
  it. Pixel contents are irrelevant to every claim and are not modelled.
-/

/-- JSON values as produced by Python's `json.loads` (numbers restricted to
integers; no claim depends on float parsing). -/
inductive Json where
  | null : Json
  | bool : Bool → Json
  | num : Int → Json
  | str : String → Json
  | arr : List Json → Json
  | obj : List (String × Json) → Json

/-- A Python dict used as a validation result: keys to JSON-like values. -/
abbrev PyDict := List (String × Json)

/-- Python's `x is True` test on a JSON value: true exactly for the boolean
`True`, not for truthy values such as `1` or `"yes"`. -/
def Json.isTrue : Json → Bool
  | .bool true => true
  | _ => false

/-- Python's `d.get(key, default)` on a parsed JSON value: succeeds with the
value (or the default when the key is absent) when the value is a dict, and
raises `AttributeError` otherwise, exactly as `result.get` does in
`validate_image` when `json.loads` returned a non-object. -/
def Json.pyGet : Json → String → Json → Except String Json
  | .obj kvs, k, dflt => .ok ((kvs.lookup k).getD dflt)
  | _, _, _ => .error "object has no attribute get"

/-- Substring test on character lists: `n` occurs contiguously in `h`. -/
def subListB (n : List Char) : List Char → Bool
  | [] => n.isPrefixOf []
  | c :: h => n.isPrefixOf (c :: h) || subListB n h

/-- Python substring test `needle in hay` on strings. -/
def substrB (needle hay : String) : Bool :=
  subListB needle.data hay.data

/-- The uploaded file object: only its length and current read position
matter to the embedding. -/
structure ByteStream where
  size : Nat
  pos : Nat

/-- `PIL.Image.open(f)` consumes the stream: the read position ends up at the
end of the data. -/
def ByteStream.readAll (s : ByteStream) : ByteStream :=
  { s with pos := s.size }

/-- `f.seek(0)`: rewind to the start. -/
def ByteStream.seekStart (s : ByteStream) : ByteStream :=
  { s with pos := 0 }

/-- One entry of `genai.list_models()`: a name plus the generation methods it
supports (the code filters on membership of `"generateContent"`). -/
structure GModel where
  name : String
  supported_generation_methods : List String

/-- Outcome of one `model.generate_content` call: either a response whose
`.text` is the given string, a `google.api_core.exceptions.ResourceExhausted`
(HTTP 429) carrying `str(e)`, or an exception of any other class. -/
inductive GenOutcome where
  | ok : String → GenOutcome
  | resourceExhausted : String → GenOutcome
  | otherError : String → GenOutcome

/-- The external world as seen by one `validate_image` call: the result of the
model-listing call, whether the upload decodes, the outcome of the n-th
`generate_content` attempt, and the behaviour of `json.loads`. -/
structure Env where
  listModels : Except String (List GModel)
  decodeOk : Bool
  decodeErrMsg : String
  generate : Nat → GenOutcome
  jsonLoads : String → Except String Json

/-- Observable side effects of one `validate_image` call: whether
`genai.configure` ran, whether `genai.list_models` was called, how many
`generate_content` calls were made, and the durations passed to
`time.sleep`, in order. -/
structure Trace where
  configured : Bool
  listedModels : Bool
  genAttempts : Nat
  sleeps : List Nat

/-- The trace of a call that touched nothing. -/
def Trace.empty : Trace := ⟨false, false, 0, []⟩

/-- The hardcoded preferred-model list of `get_working_model`
(`src/validator.py` lines 28-34). -/
def preferred_models : List String :=
  ["gemini-2.5-flash-lite", "gemini-2.0-flash", "gemini-1.5-flash",
   "gemini-flash-latest", "gemini-1.5-pro"]

/-- The list comprehension of `src/validator.py` line 38: names of the listed
models that support `generateContent`. -/
def availableNames (ms : List GModel) : List String :=
  (ms.filter (fun m => m.supported_generation_methods.contains "generateContent")).map
    (fun m => m.name)

/-- The nested loops of `src/validator.py` lines 41-44: for each preferred
name in order, return the first available name containing it as a substring. -/
def firstPrefMatch : List String → List String → Option String
  | [], _ => none
  | p :: ps, avail =>
    match avail.find? (fun a => substrB p a) with
    | some a => some a
    | none => firstPrefMatch ps avail

/-- `get_working_model` (`src/validator.py` lines 24-63). The only statement
in its `try` block that can raise is the `genai.list_models()` call, so the
`except` branch corresponds to `listModels` being an error. -/
def get_working_model (listModels : Except String (List GModel)) : String :=
  match listModels with
  | .error _ => "gemini-1.5-flash"
  | .ok ms =>
    let available_models := availableNames ms
    match firstPrefMatch preferred_models available_models with
    | some a => a
    | none =>
      match available_models.find? (fun a => substrB "flash" a.toLower) with
      | some a => a
      | none =>
        match available_models.find? (fun a => substrB "pro" a.toLower) with
        | some a => a
        | none =>
          match available_models with
          | a :: _ => a
          | [] => "gemini-1.5-flash"

/-- The retry loop of `src/validator.py` lines 102-123, with `max_retries = 3`
and initial `retry_delay = 2`. `retriesLeft` is `max_retries - attempt`, so
the Python guard `attempt < max_retries` is `retriesLeft > 0`. Returns the
list of sleep durations performed, the number of `generate_content` calls
made, and either the successful response text or the `str` of the exception
that was re-raised. -/
def genLoop (gen : Nat → GenOutcome) :
    Nat → Nat → Nat → List Nat × Nat × Except String String
  | attempt, _, 0 =>
    (match gen attempt with
     | .ok t => ([], attempt + 1, .ok t)
     | .resourceExhausted m => ([], attempt + 1, .error m)
     | .otherError m => ([], attempt + 1, .error m))
  | attempt, delay, n + 1 =>
    (match gen attempt with
     | .ok t => ([], attempt + 1, .ok t)
     | .resourceExhausted _ =>
       let rest := genLoop gen (attempt + 1) (delay * 2) n
       (delay :: rest.1, rest.2.1, rest.2.2)
     | .otherError m => ([], attempt + 1, .error m))

/-- The markdown-fence stripping of `src/validator.py` line 131. -/
def stripMd (text : String) : String :=
  ((text.replace "```json" "").replace "```" "").trim

/-- Lines 137-151 of `src/validator.py`: turn the parsed JSON verdict into the
returned dict. Runs inside the second `try`, so the `result.get` calls may
raise (when `json.loads` produced a non-object). -/
def buildVerdict (result : Json) (model_name : String) : Except String PyDict :=
  match result.pyGet "valid" .null with
  | .error e => .error e
  | .ok v =>
    if v.isTrue then
      match result.pyGet "score" (.num 100) with
      | .error e => .error e
      | .ok score =>
        .ok [("valid", Json.bool true), ("message", Json.str "OK"),
             ("score", score), ("model_used", Json.str model_name)]
    else
      match result.pyGet "reason" (.str "Invalid image") with
      | .error e => .error e
      | .ok reason =>
        match result.pyGet "suggestion"
            (.str "Please check the image requirements and try again.") with
        | .error e => .error e
        | .ok suggestion =>
          match result.pyGet "score" (.num 0) with
          | .error e => .error e
          | .ok score =>
            .ok [("valid", Json.bool false), ("error", reason),
                 ("suggestion", suggestion), ("score", score),
                 ("model_used", Json.str model_name)]

/-- `ImageValidator.validate_image` (`src/validator.py` lines 9-156).

Control flow mirrored from the source:
* line 18: falsy `api_key` (the empty string) returns immediately;
* line 22: `genai.configure` (recorded in the trace, never raises);
* line 66: `Image.open(file_upload)` reads the stream; it sits outside every
  `try`, so a decode failure propagates out of the function (the `.error`
  result). The prompt construction of lines 69-92 only feeds the remote call
  and is absorbed into `Env.generate`;
* lines 94-126: model selection, the retry loop, and the `except` that turns
  any exception raised there into the "AI Validation failed" dict
  (`model_name` is always bound there, since `get_working_model` catches its
  own exceptions);
* lines 129-156: fence stripping, `json.loads`, verdict construction, and the
  `except` that turns a parse exception into the "Validation failed" dict
  after `file_upload.seek(0)`.

Returns the result (or propagated exception), the final stream state, and the
trace of side effects. -/
def validate_image (env : Env) (file_upload : ByteStream)
    (yard_type api_key : String) : Except String PyDict × ByteStream × Trace :=
  if api_key == "" then
    (.ok [("valid", Json.bool false),
          ("error", Json.str
            "Google Gemini API Key is missing. Please enter it in the sidebar.")],
     file_upload, Trace.empty)
  else
    let stream := file_upload.readAll
    if env.decodeOk then
      let model_name := get_working_model env.listModels
      let r := genLoop env.generate 0 2 3
      let tr : Trace := ⟨true, true, r.2.1, r.1⟩
      match r.2.2 with
      | .error e =>
        (.ok [("valid", Json.bool false),
              ("error", Json.str
                ("AI Validation failed (Model: " ++ model_name ++ "). Error: " ++ e)),
              ("model_used", Json.str model_name)],
         stream, tr)
      | .ok text =>
        match env.jsonLoads (stripMd text) with
        | .error e =>
          (.ok [("valid", Json.bool false),
                ("error", Json.str ("Validation failed: " ++ e))],
           stream.seekStart, tr)
        | .ok result =>
          match buildVerdict result model_name with
          | .ok d => (.ok d, stream, tr)
          | .error e =>
            (.ok [("valid", Json.bool false),
                  ("error", Json.str ("Validation failed: " ++ e))],
             stream.seekStart, tr)
    else
      (.error env.decodeErrMsg, stream, ⟨true, false, 0, []⟩)

/-- Modelled from the spec: measurements of a decoded image used by the
heuristic validator of spec §4.1, which is not present under `src/` (the
repository only ships `app.py` and `validator.py`). The four signals named
there — grayscale Laplacian-response variance, mean of the HSV value channel,
green-pixel ratio, and the probabilistic line-segment count — are abstracted
as given numbers of the decoded image (rationals stand for the real-valued
scores; the gate comparisons are exact). -/
structure ImageMeasures where
  lapVariance : ℚ
  brightnessMean : ℚ
  greeneryRatio : ℚ
  lineCount : ℕ

/-- Modelled from the spec: the heuristic validator `validate(image_bytes,
yard_label)` of spec §4.1. Decode failure is `none`; the four quality gates
run in the fixed order blur, dark, greenery, structure, short-circuiting on
the first failure (spec §4.1 step 6), with thresholds 100.0, 40, 0.05 and 10.
The blur rejection reports the measured variance in its message (spec §8).
The label is not used by any gate (spec §3: not validated by the heuristic
path). -/
def heuristic_validate (decoded : Option ImageMeasures) (yard_label : String) :
    PyDict :=
  match decoded with
  | none => [("valid", Json.bool false), ("error", Json.str "Could not decode image.")]
  | some m =>
    if m.lapVariance < 100 then
      [("valid", Json.bool false),
       ("error", Json.str ("Image is too blurry (score: " ++ toString m.lapVariance ++ ")"))]
    else if m.brightnessMean < 40 then
      [("valid", Json.bool false), ("error", Json.str "Image is too dark.")]
    else if m.greeneryRatio ≤ 5 / 100 then
      [("valid", Json.bool false),
       ("error", Json.str ("Garden not visible (greenery: "
         ++ toString (m.greeneryRatio * 100) ++ "%)"))]
    else if m.lineCount ≤ 10 then
      [("valid", Json.bool false),
       ("error", Json.str "Home/building not clearly visible.")]
    else
      [("valid", Json.bool true), ("message", Json.str "OK")]

/-- The model-resolution procedure as the claim states it, written from the
claim's words for comparison with `get_working_model`: by descending
preference, the first available model containing a preferred identifier
(preferred identifiers checked in the fixed preference-list order), else the
first available model whose lowercased name contains "flash", else the first
whose lowercased name contains "pro", else the first available model, else
the hardcoded fallback; and the fallback when the listing call raised. -/
def get_working_model_claim (listModels : Except String (List GModel)) : String :=
  match listModels with
  | .error _ => "gemini-1.5-flash"
  | .ok ms =>
    let avail := availableNames ms
    match firstPrefMatch preferred_models avail with
    | some a => a
    | none =>
      match avail.find? (fun a => substrB "flash" a.toLower) with
      | some a => a
      | none =>
        match avail.find? (fun a => substrB "pro" a.toLower) with
        | some a => a
        | none => avail.headD "gemini-1.5-flash"

/-- The invalid-verdict dict of `src/validator.py` lines 144-151, as a
function of the parsed object's entries and the model name: each field is the
parsed value when the key is present and the documented default otherwise. -/
def invalidVerdict (kvs : List (String × Json)) (model_name : String) : PyDict :=
  [("valid", Json.bool false),
   ("error", (kvs.lookup "reason").getD (Json.str "Invalid image")),
   ("suggestion", (kvs.lookup "suggestion").getD
     (Json.str "Please check the image requirements and try again.")),
   ("score", (kvs.lookup "score").getD (Json.num 0)),
   ("model_used", Json.str model_name)]

/-- The result marks the image valid: its "valid" field is the boolean true. -/
def isValidTrue (d : PyDict) : Bool :=
  match d.lookup "valid" with
  | some (Json.bool true) => true
  | _ => false

/-- The result marks the image invalid and carries a non-empty error string. -/
def isInvalidWithMsg (d : PyDict) : Bool :=
  match d.lookup "valid", d.lookup "error" with
  | some (Json.bool false), some (Json.str s) => !(s == "")
  | _, _ => false

/-- The spec §3 invariant on a returned result: exactly one of "the valid
field is true" and "the valid field is false and a non-empty error string is
present" holds. -/
def resultInvariant (d : PyDict) : Bool :=
  isValidTrue d ^^ isInvalidWithMsg d

/-- A parsed remote verdict is reason-wellformed when, if it is an object
whose "valid" field is not exactly the boolean true, its "reason" field is
absent or a non-empty string. (Verdicts that are not objects make the
`result.get` call raise, which the code converts to a fixed non-empty error.) -/
def goodReason (o : Json) : Bool :=
  match o with
  | .obj kvs =>
    Json.isTrue ((kvs.lookup "valid").getD .null)
    || (match kvs.lookup "reason" with
        | none => true
        | some (Json.str s) => !(s == "")
        | some _ => false)
  | _ => true

/-! ## Helper lemmas -/

theorem genLoop_okStep (gen : Nat → GenOutcome) (a d r : Nat) (t : String)
    (h : gen a = .ok t) : genLoop gen a d r = ([], a + 1, .ok t) := by
  cases r <;> simp [genLoop, h]

theorem genLoop_otherStep (gen : Nat → GenOutcome) (a d r : Nat) (m : String)
    (h : gen a = .otherError m) : genLoop gen a d r = ([], a + 1, .error m) := by
  cases r <;> simp [genLoop, h]

theorem genLoop_reZero (gen : Nat → GenOutcome) (a d : Nat) (m : String)
    (h : gen a = .resourceExhausted m) :
    genLoop gen a d 0 = ([], a + 1, .error m) := by
  simp [genLoop, h]

theorem genLoop_reSucc (gen : Nat → GenOutcome) (a d n : Nat) (m : String)
    (h : gen a = .resourceExhausted m) :
    genLoop gen a d (n + 1) =
      (d :: (genLoop gen (a + 1) (d * 2) n).1, (genLoop gen (a + 1) (d * 2) n).2) := by
  simp [genLoop, h]

theorem validate_image_noKey (env : Env) (s : ByteStream) (yt : String) :
    validate_image env s yt "" =
      (.ok [("valid", Json.bool false),
            ("error", Json.str
              "Google Gemini API Key is missing. Please enter it in the sidebar.")],
       s, Trace.empty) := by
  simp [validate_image]

theorem validate_image_decodeFail (env : Env) (s : ByteStream) (yt key : String)
    (hk : key ≠ "") (hd : env.decodeOk = false) :
    validate_image env s yt key =
      (.error env.decodeErrMsg, s.readAll, ⟨true, false, 0, []⟩) := by
  simp [validate_image, hk, hd]

theorem validate_image_genError (env : Env) (s : ByteStream) (yt key e : String)
    (hk : key ≠ "") (hd : env.decodeOk = true)
    (h : (genLoop env.generate 0 2 3).2.2 = Except.error e) :
    validate_image env s yt key =
      (.ok [("valid", Json.bool false),
            ("error", Json.str ("AI Validation failed (Model: "
              ++ get_working_model env.listModels ++ "). Error: " ++ e)),
            ("model_used", Json.str (get_working_model env.listModels))],
       s.readAll,
       ⟨true, true, (genLoop env.generate 0 2 3).2.1, (genLoop env.generate 0 2 3).1⟩) := by
  simp [validate_image, hk, hd, h]

theorem validate_image_parseError (env : Env) (s : ByteStream) (yt key t e : String)
    (hk : key ≠ "") (hd : env.decodeOk = true)
    (hg : (genLoop env.generate 0 2 3).2.2 = Except.ok t)
    (hj : env.jsonLoads (stripMd t) = Except.error e) :
    validate_image env s yt key =
      (.ok [("valid", Json.bool false),
            ("error", Json.str ("Validation failed: " ++ e))],
       ⟨s.size, 0⟩,
       ⟨true, true, (genLoop env.generate 0 2 3).2.1, (genLoop env.generate 0 2 3).1⟩) := by
  simp [validate_image, hk, hd, hg, hj, ByteStream.readAll, ByteStream.seekStart]

theorem validate_image_parsedOk (env : Env) (s : ByteStream) (yt key t : String)
    (o : Json) (d : PyDict)
    (hk : key ≠ "") (hd : env.decodeOk = true)
    (hg : (genLoop env.generate 0 2 3).2.2 = Except.ok t)
    (hj : env.jsonLoads (stripMd t) = Except.ok o)
    (hb : buildVerdict o (get_working_model env.listModels) = Except.ok d) :
    validate_image env s yt key =
      (.ok d, s.readAll,
       ⟨true, true, (genLoop env.generate 0 2 3).2.1, (genLoop env.generate 0 2 3).1⟩) := by
  simp [validate_image, hk, hd, hg, hj, hb]

theorem validate_image_verdictError (env : Env) (s : ByteStream) (yt key t e : String)
    (o : Json)
    (hk : key ≠ "") (hd : env.decodeOk = true)
    (hg : (genLoop env.generate 0 2 3).2.2 = Except.ok t)
    (hj : env.jsonLoads (stripMd t) = Except.ok o)
    (hb : buildVerdict o (get_working_model env.listModels) = Except.error e) :
    validate_image env s yt key =
      (.ok [("valid", Json.bool false),
            ("error", Json.str ("Validation failed: " ++ e))],
       ⟨s.size, 0⟩,
       ⟨true, true, (genLoop env.generate 0 2 3).2.1, (genLoop env.generate 0 2 3).1⟩) := by
  simp [validate_image, hk, hd, hg, hj, hb, ByteStream.readAll, ByteStream.seekStart]

theorem buildVerdict_objTrue (kvs : List (String × Json)) (gm : String)
    (h : Json.isTrue ((kvs.lookup "valid").getD .null) = true) :
    buildVerdict (Json.obj kvs) gm =
      .ok [("valid", Json.bool true), ("message", Json.str "OK"),
           ("score", (kvs.lookup "score").getD (Json.num 100)),
           ("model_used", Json.str gm)] := by
  simp [buildVerdict, Json.pyGet, h, Except.bind, Except.pure]

theorem buildVerdict_objFalse (kvs : List (String × Json)) (gm : String)
    (h : Json.isTrue ((kvs.lookup "valid").getD .null) = false) :
    buildVerdict (Json.obj kvs) gm = .ok (invalidVerdict kvs gm) := by
  simp [buildVerdict, Json.pyGet, h, Except.bind, Except.pure, invalidVerdict]

theorem validate_image_trace (env : Env) (s : ByteStream) (yt key : String)
    (hk : key ≠ "") (hd : env.decodeOk = true) :
    (validate_image env s yt key).2.2 =
      ⟨true, true, (genLoop env.generate 0 2 3).2.1, (genLoop env.generate 0 2 3).1⟩ := by
  rcases hE : (genLoop env.generate 0 2 3).2.2 with e | t
  · rw [validate_image_genError env s yt key e hk hd hE]
  · rcases hJ : env.jsonLoads (stripMd t) with e | o
    · rw [validate_image_parseError env s yt key t e hk hd hE hJ]
    · rcases hB : buildVerdict o (get_working_model env.listModels) with e | d
      · rw [validate_image_verdictError env s yt key t e o hk hd hE hJ hB]
      · rw [validate_image_parsedOk env s yt key t o d hk hd hE hJ hB]

theorem str_append_left_ne (s t : String) (h : s ≠ "") : s ++ t ≠ "" := by
  intro hc
  apply h
  obtain ⟨a⟩ := s
  obtain ⟨b⟩ := t
  have hab : a ++ b = [] := congrArg String.data hc
  have ha := (List.append_eq_nil.mp hab).1
  subst ha
  rfl

theorem buildVerdict_nonObj (o : Json) (gm : String)
    (h : ∀ kvs : List (String × Json), o ≠ Json.obj kvs) :
    buildVerdict o gm = .error "object has no attribute get" := by
  cases o with
  | obj kvs => exact absurd rfl (h kvs)
  | null => rfl
  | bool b => rfl
  | num n => rfl
  | str s => rfl
  | arr xs => rfl

theorem Json.isTrue_iff (v : Json) : v.isTrue = true ↔ v = Json.bool true := by
  cases v with
  | null => simp [Json.isTrue]
  | bool b => cases b <;> simp [Json.isTrue]
  | num n => simp [Json.isTrue]
  | str s => simp [Json.isTrue]
  | arr xs => simp [Json.isTrue]
  | obj kvs => simp [Json.isTrue]

/-! ## Claim theorems -/

/-- Claim C1: with a non-empty credential (and a decodable upload): when the
generate call raises resource-exhausted on all of attempts 0-3, the call
makes exactly 4 attempts, sleeps 2, 4 then 8 seconds between them, and only
then surfaces the last error; when the first two attempts are rate-limited
and the third succeeds, it sleeps 2 then 4 seconds over 3 attempts; when the
first attempt raises any other exception class, the error is surfaced
immediately after 1 attempt with no sleep. -/
theorem validate_image_rate_limit_retry (env : Env) (s : ByteStream)
    (yt key : String) (hk : key ≠ "") (hd : env.decodeOk = true) :
    (∀ m0 m1 m2 m3 : String,
      env.generate 0 = .resourceExhausted m0 →
      env.generate 1 = .resourceExhausted m1 →
      env.generate 2 = .resourceExhausted m2 →
      env.generate 3 = .resourceExhausted m3 →
      (validate_image env s yt key).2.2.sleeps = [2, 4, 8] ∧
      (validate_image env s yt key).2.2.genAttempts = 4 ∧
      (validate_image env s yt key).1 =
        .ok [("valid", Json.bool false),
             ("error", Json.str ("AI Validation failed (Model: "
               ++ get_working_model env.listModels ++ "). Error: " ++ m3)),
             ("model_used", Json.str (get_working_model env.listModels))]) ∧
    (∀ m0 m1 t : String,
      env.generate 0 = .resourceExhausted m0 →
      env.generate 1 = .resourceExhausted m1 →
      env.generate 2 = .ok t →
      (validate_image env s yt key).2.2.sleeps = [2, 4] ∧
      (validate_image env s yt key).2.2.genAttempts = 3) ∧
    (∀ m : String,
      env.generate 0 = .otherError m →
      (validate_image env s yt key).2.2.sleeps = [] ∧
      (validate_image env s yt key).2.2.genAttempts = 1 ∧
      (validate_image env s yt key).1 =
        .ok [("valid", Json.bool false),
             ("error", Json.str ("AI Validation failed (Model: "
               ++ get_working_model env.listModels ++ "). Error: " ++ m)),
             ("model_used", Json.str (get_working_model env.listModels))]) := by
  refine ⟨?_, ?_, ?_⟩
  · intro m0 m1 m2 m3 h0 h1 h2 h3
    have e0 : genLoop env.generate 0 2 3 = ([2, 4, 8], 4, .error m3) := by
      simp [genLoop, h0, h1, h2, h3]
    rw [validate_image_genError env s yt key m3 hk hd (by rw [e0])]
    simp [e0]
  · intro m0 m1 t h0 h1 h2
    have e0 : genLoop env.generate 0 2 3 = ([2, 4], 3, .ok t) := by
      simp [genLoop, h0, h1, h2]
    rw [validate_image_trace env s yt key hk hd]
    simp [e0]
  · intro m h0
    have e0 : genLoop env.generate 0 2 3 = ([], 1, .error m) :=
      genLoop_otherStep env.generate 0 2 3 m h0
    rw [validate_image_genError env s yt key m hk hd (by rw [e0])]
    simp [e0]

/-- Witness for C1 at an environment whose generate call is rate-limited on
every attempt: 4 attempts, sleeps 2, 4, 8, and the surfaced 429 error. -/
theorem validate_image_rate_limit_retry_witness :
    "KEY" ≠ "" ∧
    (validate_image
      (Env.mk (.ok []) true "" (fun _ => .resourceExhausted "429 quota exceeded")
        (fun _ => .error "unused"))
      ⟨5, 0⟩ "Side Yard" "KEY").2.2.sleeps = [2, 4, 8] ∧
    (validate_image
      (Env.mk (.ok []) true "" (fun _ => .resourceExhausted "429 quota exceeded")
        (fun _ => .error "unused"))
      ⟨5, 0⟩ "Side Yard" "KEY").2.2.genAttempts = 4 ∧
    (validate_image
      (Env.mk (.ok []) true "" (fun _ => .resourceExhausted "429 quota exceeded")
        (fun _ => .error "unused"))
      ⟨5, 0⟩ "Side Yard" "KEY").1 =
      .ok [("valid", Json.bool false),
           ("error", Json.str
             "AI Validation failed (Model: gemini-1.5-flash). Error: 429 quota exceeded"),
           ("model_used", Json.str "gemini-1.5-flash")] := by
  have h := (validate_image_rate_limit_retry
    (Env.mk (.ok []) true "" (fun _ => .resourceExhausted "429 quota exceeded")
      (fun _ => .error "unused"))
    ⟨5, 0⟩ "Side Yard" "KEY" (by simp) rfl).1
    "429 quota exceeded" "429 quota exceeded" "429 quota exceeded" "429 quota exceeded"
    rfl rfl rfl rfl
  exact ⟨by simp, h.1, h.2.1, by rw [h.2.2]; rfl⟩

/-- Claim C2: `get_working_model` implements exactly the descending-preference
selection the claim describes (preferred identifiers in preference-list
order, then "flash" in the lowercased name, then "pro", then the first
available, then the hardcoded fallback), and a failing listing call yields
the hardcoded fallback with no error surfaced. -/
theorem get_working_model_matches_claim (lm : Except String (List GModel)) :
    get_working_model lm = get_working_model_claim lm := by
  cases lm with
  | error e => rfl
  | ok ms =>
    simp only [get_working_model, get_working_model_claim]
    cases availableNames ms <;> rfl

/-- Claim C4 (spec-modelled): for any decodable image whose Laplacian-response
variance is below 100.0, the heuristic validator returns an invalid result
whose message reports blur and echoes the measured variance, and the outcome
depends on no other measurement (blur is decided before every other gate). -/
theorem heuristic_blur_gate (m : ImageMeasures) (yl : String)
    (h : m.lapVariance < 100) :
    heuristic_validate (some m) yl =
      [("valid", Json.bool false),
       ("error", Json.str ("Image is too blurry (score: "
         ++ toString m.lapVariance ++ ")"))]
    ∧ ∀ m' : ImageMeasures, m'.lapVariance = m.lapVariance →
        heuristic_validate (some m') yl = heuristic_validate (some m) yl := by
  constructor
  · simp [heuristic_validate, h]
  · intro m' hm
    simp [heuristic_validate, hm, h]

/-- Witness for C4 at variance 50 (below the 100.0 threshold). -/
theorem heuristic_blur_gate_witness :
    (⟨50, 120, 1/2, 20⟩ : ImageMeasures).lapVariance < 100 ∧
    heuristic_validate (some ⟨50, 120, 1/2, 20⟩) "Front Yard" =
      [("valid", Json.bool false),
       ("error", Json.str "Image is too blurry (score: 50)")] := by
  refine ⟨by norm_num, ?_⟩
  rw [(heuristic_blur_gate ⟨50, 120, 1/2, 20⟩ "Front Yard" (by norm_num)).1]
  rfl

/-- Counterexample to claim C9: a fully successful validation (remote call
succeeds, JSON parses, verdict built) leaves the input stream's read position
at the end of the data (position 10 of 10), not restored to the start. -/
theorem stream_not_rewound_on_success :
    (validate_image
      (Env.mk (.ok []) true "" (fun _ => .ok "resp")
        (fun _ => .ok (Json.obj [("valid", Json.bool true)])))
      ⟨10, 0⟩ "Front Yard" "KEY").2.1.pos = 10 ∧
    ¬ (validate_image
      (Env.mk (.ok []) true "" (fun _ => .ok "resp")
        (fun _ => .ok (Json.obj [("valid", Json.bool true)])))
      ⟨10, 0⟩ "Front Yard" "KEY").2.1.pos = 0 := by
  exact ⟨rfl, by decide⟩

/-- Claim C9 amended: the read position is restored to the start only on the
response-parsing-failure branch (`json.loads` or the `result.get` calls
raising, where the code runs `file_upload.seek(0)`); every other branch that
reads the stream — decode failure, invocation failure, and full success —
leaves the position at the end of the data, and the credential-missing branch
does not touch the stream at all. -/
theorem stream_rewound_only_on_parse_failure (env : Env) (s : ByteStream)
    (yt key : String) (hk : key ≠ "") :
    (validate_image env s yt "").2.1 = s ∧
    (env.decodeOk = false → (validate_image env s yt key).2.1.pos = s.size) ∧
    (env.decodeOk = true →
      (∀ e : String, (genLoop env.generate 0 2 3).2.2 = Except.error e →
        (validate_image env s yt key).2.1.pos = s.size) ∧
      (∀ t e : String, (genLoop env.generate 0 2 3).2.2 = Except.ok t →
        env.jsonLoads (stripMd t) = Except.error e →
        (validate_image env s yt key).2.1.pos = 0) ∧
      (∀ (t e : String) (o : Json), (genLoop env.generate 0 2 3).2.2 = Except.ok t →
        env.jsonLoads (stripMd t) = Except.ok o →
        buildVerdict o (get_working_model env.listModels) = Except.error e →
        (validate_image env s yt key).2.1.pos = 0) ∧
      (∀ (t : String) (o : Json) (d : PyDict),
        (genLoop env.generate 0 2 3).2.2 = Except.ok t →
        env.jsonLoads (stripMd t) = Except.ok o →
        buildVerdict o (get_working_model env.listModels) = Except.ok d →
        (validate_image env s yt key).2.1.pos = s.size)) := by
  refine ⟨by rw [validate_image_noKey env s yt], ?_, ?_⟩
  · intro hdec
    rw [validate_image_decodeFail env s yt key hk hdec]
    rfl
  · intro hdec
    refine ⟨?_, ?_, ?_, ?_⟩
    · intro e hE
      rw [validate_image_genError env s yt key e hk hdec hE]
      rfl
    · intro t e hE hJ
      rw [validate_image_parseError env s yt key t e hk hdec hE hJ]
    · intro t e o hE hJ hB
      rw [validate_image_verdictError env s yt key t e o hk hdec hE hJ hB]
    · intro t o d hE hJ hB
      rw [validate_image_parsedOk env s yt key t o d hk hdec hE hJ hB]
      rfl

/-- Witness for C9 (amended) at a malformed-JSON response: the
parse-failure branch rewinds the stream of size 7 back to position 0. -/
theorem stream_rewound_only_on_parse_failure_witness :
    "KEY" ≠ "" ∧
    (validate_image
      (Env.mk (.ok []) true "" (fun _ => .ok "not json")
        (fun _ => .error "Expecting value"))
      ⟨7, 3⟩ "Back Yard" "KEY").2.1.pos = 0 := by
  refine ⟨by simp, ?_⟩
  exact ((stream_rewound_only_on_parse_failure
    (Env.mk (.ok []) true "" (fun _ => .ok "not json")
      (fun _ => .error "Expecting value"))
    ⟨7, 3⟩ "Back Yard" "KEY" (by simp)).2.2 rfl).2.1 "not json" "Expecting value" rfl rfl

/-- Claim C10: a parsed verdict with "valid" exactly true but no "score" field
yields a valid result whose score is 100 (not the invalid-branch default 0). -/
theorem valid_score_defaults_to_100 (env : Env) (s : ByteStream)
    (yt key t : String) (kvs : List (String × Json))
    (hk : key ≠ "") (hd : env.decodeOk = true)
    (hg : (genLoop env.generate 0 2 3).2.2 = Except.ok t)
    (hj : env.jsonLoads (stripMd t) = Except.ok (Json.obj kvs))
    (hv : kvs.lookup "valid" = some (Json.bool true))
    (hs : kvs.lookup "score" = none) :
    (validate_image env s yt key).1 =
      .ok [("valid", Json.bool true), ("message", Json.str "OK"),
           ("score", Json.num 100),
           ("model_used", Json.str (get_working_model env.listModels))] := by
  have hb := buildVerdict_objTrue kvs (get_working_model env.listModels)
    (by simp [hv, Json.isTrue])
  rw [validate_image_parsedOk env s yt key t _ _ hk hd hg hj hb]
  simp [hs]

/-- Witness for C10: a remote verdict of exactly the object
with only a true "valid" field produces score 100. -/
theorem valid_score_defaults_to_100_witness :
    "KEY" ≠ "" ∧
    (Env.mk (.ok []) true "" (fun _ => .ok "resp")
      (fun _ => .ok (Json.obj [("valid", Json.bool true)]))).jsonLoads (stripMd "resp")
      = Except.ok (Json.obj [("valid", Json.bool true)]) ∧
    (validate_image
      (Env.mk (.ok []) true "" (fun _ => .ok "resp")
        (fun _ => .ok (Json.obj [("valid", Json.bool true)])))
      ⟨5, 0⟩ "Front Yard" "KEY").1 =
      .ok [("valid", Json.bool true), ("message", Json.str "OK"),
           ("score", Json.num 100), ("model_used", Json.str "gemini-1.5-flash")] := by
  refine ⟨by simp, rfl, ?_⟩
  exact valid_score_defaults_to_100
    (Env.mk (.ok []) true "" (fun _ => .ok "resp")
      (fun _ => .ok (Json.obj [("valid", Json.bool true)])))
    ⟨5, 0⟩ "Front Yard" "KEY" "resp" [("valid", Json.bool true)]
    (by simp) rfl rfl rfl rfl rfl

/-- Counterexample to claim C3, in both of its parts: (i) a malformed-JSON
response makes `validate_image` return a caught-exception result that carries
no "model_used" key at all, though the claim requires every such result to
name the selected model; (ii) an undecodable upload makes `Image.open`
(validator.py line 66, outside both `try` blocks) raise, and that exception
propagates out of `validate_image` to the caller, though the claim says no
exception ever propagates. -/
theorem parse_error_result_lacks_model_used :
    (validate_image
      (Env.mk (.ok []) true "" (fun _ => .ok "not json")
        (fun _ => .error "Expecting value: line 1 column 1 (char 0)"))
      ⟨7, 0⟩ "Front Yard" "KEY").1 =
      .ok [("valid", Json.bool false),
           ("error", Json.str
             "Validation failed: Expecting value: line 1 column 1 (char 0)")] ∧
    ([("valid", Json.bool false),
      ("error", Json.str
        "Validation failed: Expecting value: line 1 column 1 (char 0)")] :
        PyDict).lookup "model_used" = none ∧
    (validate_image
      (Env.mk (.ok []) false "cannot identify image file"
        (fun _ => .ok "unused") (fun _ => .error "unused"))
      ⟨7, 0⟩ "Front Yard" "KEY").1 =
      Except.error "cannot identify image file" := by
  exact ⟨rfl, rfl, rfl⟩

/-- Claim C3 amended: every exception raised during model invocation or
response parsing is caught and surfaced as a `valid = false` result whose
error text contains the exception message, and when the upload decodes no
exception propagates; but the result carries `model_used` (the selected
model) only when the exception arose during invocation — the
response-parsing failure dict omits `model_used` ("Validation failed:
\<message\>" only) — and a decode failure in `Image.open`, which sits
outside both `try` blocks, is not caught and propagates raw to the caller. -/
theorem caught_exception_results (env : Env) (s : ByteStream) (yt key : String)
    (hk : key ≠ "") :
    (env.decodeOk = false →
      (validate_image env s yt key).1 = Except.error env.decodeErrMsg) ∧
    (env.decodeOk = true →
      (∀ e : String, (genLoop env.generate 0 2 3).2.2 = Except.error e →
        (validate_image env s yt key).1 =
          .ok [("valid", Json.bool false),
               ("error", Json.str ("AI Validation failed (Model: "
                 ++ get_working_model env.listModels ++ "). Error: " ++ e)),
               ("model_used", Json.str (get_working_model env.listModels))]) ∧
      (∀ t e : String, (genLoop env.generate 0 2 3).2.2 = Except.ok t →
        env.jsonLoads (stripMd t) = Except.error e →
        (validate_image env s yt key).1 =
          .ok [("valid", Json.bool false),
               ("error", Json.str ("Validation failed: " ++ e))]) ∧
      (∀ (t e : String) (o : Json), (genLoop env.generate 0 2 3).2.2 = Except.ok t →
        env.jsonLoads (stripMd t) = Except.ok o →
        buildVerdict o (get_working_model env.listModels) = Except.error e →
        (validate_image env s yt key).1 =
          .ok [("valid", Json.bool false),
               ("error", Json.str ("Validation failed: " ++ e))]) ∧
      (∃ d : PyDict, (validate_image env s yt key).1 = Except.ok d)) := by
  refine ⟨?_, ?_⟩
  · intro hdec
    rw [validate_image_decodeFail env s yt key hk hdec]
  · intro hd
    refine ⟨?_, ?_, ?_, ?_⟩
    · intro e hE
      rw [validate_image_genError env s yt key e hk hd hE]
    · intro t e hE hJ
      rw [validate_image_parseError env s yt key t e hk hd hE hJ]
    · intro t e o hE hJ hB
      rw [validate_image_verdictError env s yt key t e o hk hd hE hJ hB]
    · rcases hE : (genLoop env.generate 0 2 3).2.2 with e | t
      · exact ⟨_, by rw [validate_image_genError env s yt key e hk hd hE]⟩
      · rcases hJ : env.jsonLoads (stripMd t) with e | o
        · exact ⟨_, by rw [validate_image_parseError env s yt key t e hk hd hE hJ]⟩
        · rcases hB : buildVerdict o (get_working_model env.listModels) with e | d
          · exact ⟨_, by rw [validate_image_verdictError env s yt key t e o hk hd hE hJ hB]⟩
          · exact ⟨d, by rw [validate_image_parsedOk env s yt key t o d hk hd hE hJ hB]⟩

/-- Witness for C3 (amended) at a network failure on the first generate
attempt: the surfaced result names the model and contains the message. -/
theorem caught_exception_results_witness :
    "KEY" ≠ "" ∧
    (validate_image
      (Env.mk (.ok []) true "" (fun _ => .otherError "503 service unavailable")
        (fun _ => .error "unused"))
      ⟨7, 0⟩ "Front Yard" "KEY").1 =
      .ok [("valid", Json.bool false),
           ("error", Json.str
             "AI Validation failed (Model: gemini-1.5-flash). Error: 503 service unavailable"),
           ("model_used", Json.str "gemini-1.5-flash")] := by
  have h := ((caught_exception_results
    (Env.mk (.ok []) true "" (fun _ => .otherError "503 service unavailable")
      (fun _ => .error "unused"))
    ⟨7, 0⟩ "Front Yard" "KEY" (by simp)).2 rfl).1 "503 service unavailable" rfl
  exact ⟨by simp, by rw [h]; rfl⟩

/-- Claim C5: after a successful remote call and a successful parse to an
object, the result is valid (with message "OK") iff the parsed "valid" field
is exactly the boolean true; any other value of that field yields the invalid
verdict built from the parsed reason/suggestion/score. -/
theorem verdict_valid_iff_exactly_true (env : Env) (s : ByteStream)
    (yt key t : String) (kvs : List (String × Json))
    (hk : key ≠ "") (hd : env.decodeOk = true)
    (hg : (genLoop env.generate 0 2 3).2.2 = Except.ok t)
    (hj : env.jsonLoads (stripMd t) = Except.ok (Json.obj kvs)) :
    ∃ d : PyDict, (validate_image env s yt key).1 = .ok d ∧
      ((d.lookup "valid" = some (Json.bool true)
          ∧ d.lookup "message" = some (Json.str "OK"))
        ↔ (kvs.lookup "valid").getD Json.null = Json.bool true) ∧
      ((kvs.lookup "valid").getD Json.null ≠ Json.bool true →
        d = invalidVerdict kvs (get_working_model env.listModels)) := by
  by_cases hv : Json.isTrue ((kvs.lookup "valid").getD .null) = true
  · have hveq := (Json.isTrue_iff _).mp hv
    have hb := buildVerdict_objTrue kvs (get_working_model env.listModels) hv
    refine ⟨_, by rw [validate_image_parsedOk env s yt key t _ _ hk hd hg hj hb], ?_, ?_⟩
    · simp [List.lookup, hveq]
    · intro hne
      exact absurd hveq hne
  · have hv' : Json.isTrue ((kvs.lookup "valid").getD .null) = false := by
      simpa using hv
    have hb := buildVerdict_objFalse kvs (get_working_model env.listModels) hv'
    refine ⟨_, by rw [validate_image_parsedOk env s yt key t _ _ hk hd hg hj hb], ?_, ?_⟩
    · constructor
      · rintro ⟨hvl, -⟩
        simp [invalidVerdict, List.lookup] at hvl
      · intro hT
        exact absurd ((Json.isTrue_iff _).mpr hT) hv
    · intro _
      rfl

/-- Witness for C5 at a remote verdict whose "valid" field is the string
"yes" (truthy in Python but not the boolean true): the result is invalid. -/
theorem verdict_valid_iff_exactly_true_witness :
    "KEY" ≠ "" ∧
    ∃ d : PyDict,
      (validate_image
        (Env.mk (.ok []) true "" (fun _ => .ok "resp")
          (fun _ => .ok (Json.obj [("valid", Json.str "yes")])))
        ⟨5, 0⟩ "Back Yard" "KEY").1 = .ok d ∧
      ¬ (d.lookup "valid" = some (Json.bool true)
          ∧ d.lookup "message" = some (Json.str "OK")) ∧
      d = invalidVerdict [("valid", Json.str "yes")] "gemini-1.5-flash" := by
  refine ⟨by simp, ?_⟩
  obtain ⟨d, h1, h2, h3⟩ := verdict_valid_iff_exactly_true
    (Env.mk (.ok []) true "" (fun _ => .ok "resp")
      (fun _ => .ok (Json.obj [("valid", Json.str "yes")])))
    ⟨5, 0⟩ "Back Yard" "KEY" "resp" [("valid", Json.str "yes")]
    (by simp) rfl rfl rfl
  refine ⟨d, h1, ?_, ?_⟩
  · intro hl
    have h4 := h2.mp hl
    simp [List.lookup] at h4
  · exact h3 (by simp [List.lookup])

/-- Claim C6: when the parsed verdict's "valid" field is not exactly true,
the returned invalid result takes each of error/suggestion/score from the
parsed reason/suggestion/score when present and the documented default
("Invalid image", the generic remediation text, 0) when absent. -/
theorem invalid_verdict_defaults (env : Env) (s : ByteStream)
    (yt key t : String) (kvs : List (String × Json))
    (hk : key ≠ "") (hd : env.decodeOk = true)
    (hg : (genLoop env.generate 0 2 3).2.2 = Except.ok t)
    (hj : env.jsonLoads (stripMd t) = Except.ok (Json.obj kvs))
    (hv : Json.isTrue ((kvs.lookup "valid").getD Json.null) = false) :
    (validate_image env s yt key).1 =
      .ok (invalidVerdict kvs (get_working_model env.listModels)) ∧
    (invalidVerdict kvs (get_working_model env.listModels)).lookup "error"
      = some ((kvs.lookup "reason").getD (Json.str "Invalid image")) ∧
    (invalidVerdict kvs (get_working_model env.listModels)).lookup "suggestion"
      = some ((kvs.lookup "suggestion").getD
          (Json.str "Please check the image requirements and try again.")) ∧
    (invalidVerdict kvs (get_working_model env.listModels)).lookup "score"
      = some ((kvs.lookup "score").getD (Json.num 0)) := by
  refine ⟨?_, by simp [invalidVerdict, List.lookup],
    by simp [invalidVerdict, List.lookup], by simp [invalidVerdict, List.lookup]⟩
  rw [validate_image_parsedOk env s yt key t _ _ hk hd hg hj
    (buildVerdict_objFalse kvs (get_working_model env.listModels) hv)]

/-- Witness for C6 at the spec's example verdict: valid false with a reason
but no suggestion and no score, so the defaults fill in. -/
theorem invalid_verdict_defaults_witness :
    "KEY" ≠ "" ∧
    (validate_image
      (Env.mk (.ok []) true "" (fun _ => .ok "resp")
        (fun _ => .ok (Json.obj
          [("valid", Json.bool false), ("reason", Json.str "shows a kitchen interior")])))
      ⟨5, 0⟩ "Front Yard" "KEY").1 =
      .ok [("valid", Json.bool false),
           ("error", Json.str "shows a kitchen interior"),
           ("suggestion", Json.str "Please check the image requirements and try again."),
           ("score", Json.num 0),
           ("model_used", Json.str "gemini-1.5-flash")] := by
  refine ⟨by simp, ?_⟩
  have h := (invalid_verdict_defaults
    (Env.mk (.ok []) true "" (fun _ => .ok "resp")
      (fun _ => .ok (Json.obj
        [("valid", Json.bool false), ("reason", Json.str "shows a kitchen interior")])))
    ⟨5, 0⟩ "Front Yard" "KEY" "resp"
    [("valid", Json.bool false), ("reason", Json.str "shows a kitchen interior")]
    (by simp) rfl rfl rfl rfl).1
  rw [h]
  rfl

/-- Counterexample to claim C8: a remote verdict of
`{"valid": false, "reason": ""}` is returned with `valid = false` and an
empty error string, so neither side of the claimed exactly-one-of invariant
holds. -/
theorem result_invariant_violated_empty_reason :
    (validate_image
      (Env.mk (.ok []) true "" (fun _ => .ok "resp")
        (fun _ => .ok (Json.obj [("valid", Json.bool false), ("reason", Json.str "")])))
      ⟨5, 0⟩ "Front Yard" "KEY").1 =
      .ok [("valid", Json.bool false), ("error", Json.str ""),
           ("suggestion", Json.str "Please check the image requirements and try again."),
           ("score", Json.num 0), ("model_used", Json.str "gemini-1.5-flash")] ∧
    resultInvariant
      [("valid", Json.bool false), ("error", Json.str ""),
       ("suggestion", Json.str "Please check the image requirements and try again."),
       ("score", Json.num 0), ("model_used", Json.str "gemini-1.5-flash")] = false := by
  exact ⟨rfl, rfl⟩

/-- Claim C8 amended: every result returned by `validate_image` satisfies the
exactly-one-of invariant (valid true, or valid false with a non-empty error
string), provided every object the JSON parse can produce is
reason-wellformed — the code passes a present "reason" field through
unchanged, so an invalid remote verdict carrying an empty or non-string
reason is returned as-is and violates the invariant. -/
theorem result_invariant_holds (env : Env) (s : ByteStream) (yt key : String)
    (hgood : ∀ t o, env.jsonLoads t = Except.ok o → goodReason o = true) :
    ∀ d : PyDict, (validate_image env s yt key).1 = Except.ok d →
      resultInvariant d = true := by
  intro d hd
  by_cases hkey : key = ""
  · subst hkey
    rw [validate_image_noKey env s yt] at hd
    obtain rfl : _ = d := Except.ok.inj hd
    rfl
  · by_cases hdec : env.decodeOk = true
    · rcases hE : (genLoop env.generate 0 2 3).2.2 with e | t
      · rw [validate_image_genError env s yt key e hkey hdec hE] at hd
        obtain rfl : _ = d := Except.ok.inj hd
        have hne : "AI Validation failed (Model: "
            ++ get_working_model env.listModels ++ "). Error: " ++ e ≠ "" := by
          apply str_append_left_ne
          apply str_append_left_ne
          apply str_append_left_ne
          simp
        simp [resultInvariant, isValidTrue, isInvalidWithMsg, List.lookup, hne]
      · rcases hJ : env.jsonLoads (stripMd t) with e | o
        · rw [validate_image_parseError env s yt key t e hkey hdec hE hJ] at hd
          obtain rfl : _ = d := Except.ok.inj hd
          have hne : "Validation failed: " ++ e ≠ "" := by
            apply str_append_left_ne
            simp
          simp [resultInvariant, isValidTrue, isInvalidWithMsg, List.lookup, hne]
        · cases o with
          | obj kvs =>
            by_cases hv : Json.isTrue ((kvs.lookup "valid").getD .null) = true
            · rw [validate_image_parsedOk env s yt key t _ _ hkey hdec hE hJ
                (buildVerdict_objTrue kvs _ hv)] at hd
              obtain rfl : _ = d := Except.ok.inj hd
              simp [resultInvariant, isValidTrue, isInvalidWithMsg, List.lookup]
            · have hv' : Json.isTrue ((kvs.lookup "valid").getD .null) = false := by
                simpa using hv
              rw [validate_image_parsedOk env s yt key t _ _ hkey hdec hE hJ
                (buildVerdict_objFalse kvs _ hv')] at hd
              obtain rfl : _ = d := Except.ok.inj hd
              have hg := hgood (stripMd t) (Json.obj kvs) hJ
              simp only [goodReason, hv', Bool.false_or] at hg
              rcases hr : kvs.lookup "reason" with - | r
              · simp [resultInvariant, isValidTrue, isInvalidWithMsg,
                  invalidVerdict, List.lookup, hr]
              · rw [hr] at hg
                cases r with
                | str sr =>
                  have hsr : ¬ sr = "" := by simpa using hg
                  simp [resultInvariant, isValidTrue, isInvalidWithMsg,
                    invalidVerdict, List.lookup, hr, hsr]
                | null => simp at hg
                | bool b => simp at hg
                | num n => simp at hg
                | arr xs => simp at hg
                | obj kvs2 => simp at hg
          | null =>
            rw [validate_image_verdictError env s yt key t _ _ hkey hdec hE hJ
              (buildVerdict_nonObj _ _ (by intro kvs h; cases h))] at hd
            obtain rfl : _ = d := Except.ok.inj hd
            simp [resultInvariant, isValidTrue, isInvalidWithMsg, List.lookup]
          | bool b =>
            rw [validate_image_verdictError env s yt key t _ _ hkey hdec hE hJ
              (buildVerdict_nonObj _ _ (by intro kvs h; cases h))] at hd
            obtain rfl : _ = d := Except.ok.inj hd
            simp [resultInvariant, isValidTrue, isInvalidWithMsg, List.lookup]
          | num n =>
            rw [validate_image_verdictError env s yt key t _ _ hkey hdec hE hJ
              (buildVerdict_nonObj _ _ (by intro kvs h; cases h))] at hd
            obtain rfl : _ = d := Except.ok.inj hd
            simp [resultInvariant, isValidTrue, isInvalidWithMsg, List.lookup]
          | str sv =>
            rw [validate_image_verdictError env s yt key t _ _ hkey hdec hE hJ
              (buildVerdict_nonObj _ _ (by intro kvs h; cases h))] at hd
            obtain rfl : _ = d := Except.ok.inj hd
            simp [resultInvariant, isValidTrue, isInvalidWithMsg, List.lookup]
          | arr xs =>
            rw [validate_image_verdictError env s yt key t _ _ hkey hdec hE hJ
              (buildVerdict_nonObj _ _ (by intro kvs h; cases h))] at hd
            obtain rfl : _ = d := Except.ok.inj hd
            simp [resultInvariant, isValidTrue, isInvalidWithMsg, List.lookup]
    · have hdec' : env.decodeOk = false := by simpa using hdec
      rw [validate_image_decodeFail env s yt key hkey hdec'] at hd
      cases hd

/-- Witness for C8 (amended) at a well-formed invalid verdict: the returned
result satisfies the invariant. -/
theorem result_invariant_holds_witness :
    (validate_image
      (Env.mk (.ok []) true "" (fun _ => .ok "resp")
        (fun _ => .ok (Json.obj [("valid", Json.bool false),
          ("reason", Json.str "shows a kitchen interior")])))
      ⟨5, 0⟩ "Front Yard" "KEY").1 =
      Except.ok
        [("valid", Json.bool false), ("error", Json.str "shows a kitchen interior"),
         ("suggestion", Json.str "Please check the image requirements and try again."),
         ("score", Json.num 0), ("model_used", Json.str "gemini-1.5-flash")] ∧
    resultInvariant
      [("valid", Json.bool false), ("error", Json.str "shows a kitchen interior"),
       ("suggestion", Json.str "Please check the image requirements and try again."),
       ("score", Json.num 0), ("model_used", Json.str "gemini-1.5-flash")] = true := by
  refine ⟨rfl, ?_⟩
  exact result_invariant_holds
    (Env.mk (.ok []) true "" (fun _ => .ok "resp")
      (fun _ => .ok (Json.obj [("valid", Json.bool false),
        ("reason", Json.str "shows a kitchen interior")])))
    ⟨5, 0⟩ "Front Yard" "KEY"
    (fun t o h => by
      cases Except.ok.inj h
      rfl)
    _ rfl

/-- Claim C7: a call with an empty credential returns immediately with
`valid = false` and an error message mentioning the missing API Key, and the
trace records no API configuration, no model listing, no generate call and no
sleep; the stream is untouched. -/
theorem missing_api_key_no_network (env : Env) (s : ByteStream) (yt : String) :
    validate_image env s yt "" =
      (.ok [("valid", Json.bool false),
            ("error", Json.str
              "Google Gemini API Key is missing. Please enter it in the sidebar.")],
       s, ⟨false, false, 0, []⟩)
    ∧ substrB "API Key is missing"
        "Google Gemini API Key is missing. Please enter it in the sidebar." = true := by
  exact ⟨validate_image_noKey env s yt, by decide⟩

